import Mathlib

/-!
Shallow embedding of the home-security face-recognition service
(`src/app.py`) in Lean 4.

The repository is a Flask application whose algorithmic core is:
`train_model` (lines 91-130), `detect_and_recognize_faces` (lines 132-171),
`send_alert_email` (lines 55-89), `upload_and_analyze_image` (lines 173-194)
and `delete_log` (lines 223-240).

External library calls (OpenCV decoding, colour conversion, Haar-cascade
detection, resizing, LBPH prediction) are modelled as explicit function
parameters, collected in `RecogEnv`: the logic of the repository is translated
faithfully, while the library internals stay abstract.  Filesystem reads
are modelled by passing the decode results in (`DirEntry`, `decode`),
and database / filesystem state is threaded explicitly
(`UploadState`, `ServerState`).  The float `confidence` returned by
`cv2.face.LBPHFaceRecognizer.predict` is modelled as a rational number;
only order comparisons against the literal threshold 50 are performed on
it, exactly as in the source.
-/

namespace HomeSec

/-- A raster image: a row-major grid of pixel values.  Used both for the
grayscale images handled during training/recognition and for the colour
images (whose channel structure is irrelevant to the embedded logic). -/
structure Image where
  rows : List (List Nat)
deriving DecidableEq, Repr

/-- An axis-aligned bounding box `(x, y, w, h)`, as returned by
`face_cascade.detectMultiScale` in `detect_and_recognize_faces`. -/
structure Rect where
  x : Nat
  y : Nat
  w : Nat
  h : Nat
deriving DecidableEq, Repr

/-- The numpy slice `gray_image[y:y+h, x:x+w]` of app.py line 151. -/
def cropImage (img : Image) (r : Rect) : Image :=
  ⟨((img.rows.drop r.y).take r.h).map (fun row => (row.drop r.x).take r.w)⟩

/-! ## Enrollment trainer (`train_model`, app.py lines 91-130) -/

/-- One entry of `os.listdir(KNOWN_FACES_DIR)`: either a subdirectory
(an identity, whose files are listed with the result of
`cv2.imread(path, cv2.IMREAD_GRAYSCALE)` — `none` when the file is not a
readable image) or a plain file (skipped by the `isdir` test of
line 105). -/
inductive DirEntry where
  | dir (dirName : String) (files : List (String × Option Image))
  | file (fileName : String)
deriving DecidableEq, Repr

/-- The state accumulated by `face_recognizer.train(faces, labels)`:
the LBPH model is opaque, so we record exactly the training data it was
given (app.py lines 96-97, 125-128). -/
structure LBPHModel where
  faces : List Image
  labels : List Nat
deriving DecidableEq, Repr

/-- Failure of `train_model`: the `exit()` of line 123 when no known face
was loaded ("EmptyCorpusError" in the spec). -/
inductive TrainError where
  | emptyCorpus
deriving DecidableEq, Repr

/-- The loop state of `train_model`: `faces`, `labels`, `label_id` and
`label_map` (app.py lines 96-99).  `label_map` is an association list in
insertion order, which coincides with the Python dict since the keys
`0, 1, 2, ...` are fresh. -/
structure TrainState where
  faces : List Image
  labels : List Nat
  labelId : Nat
  labelMap : List (Nat × String)
deriving DecidableEq, Repr

/-- Inner loop body of `train_model` (app.py lines 109-117): one file of
an identity directory.  An unreadable image (`image is None`) is skipped;
a readable one is resized to `IMAGE_SIZE = (200, 200)` and appended to
`faces`, with the current `label_id` appended to `labels`. -/
def processImage (resize : Image → Nat × Nat → Image) (labelId : Nat)
    (acc : List Image × List Nat) : String × Option Image → List Image × List Nat
  | (_, none) => acc
  | (_, some img) => (acc.1 ++ [resize img (200, 200)], acc.2 ++ [labelId])

/-- Outer loop body of `train_model` (app.py lines 103-119): one entry of
the corpus root.  Non-directories are skipped; for a directory,
`label_map[label_id]` is set to the directory name, its files are
processed, and `label_id` is incremented. -/
def processEntry (resize : Image → Nat × Nat → Image) (s : TrainState) :
    DirEntry → TrainState
  | DirEntry.file _ => s
  | DirEntry.dir dirName files =>
      let p := files.foldl (processImage resize s.labelId) (s.faces, s.labels)
      ⟨p.1, p.2, s.labelId + 1, s.labelMap ++ [(s.labelId, dirName)]⟩

/-- `train_model` (app.py lines 91-130).  `resize` is `cv2.resize`;
`corpus` is the listing of `KNOWN_FACES_DIR` together with the grayscale
decode result of every file.  Returns the trained model and `label_map`,
or the fatal empty-corpus failure of lines 121-123. -/
def train_model (resize : Image → Nat × Nat → Image) (corpus : List DirEntry) :
    Except TrainError (LBPHModel × List (Nat × String)) :=
  let s := corpus.foldl (processEntry resize) ⟨[], [], 0, []⟩
  if s.faces.length = 0 then Except.error TrainError.emptyCorpus
  else Except.ok (⟨s.faces, s.labels⟩, s.labelMap)

/-! Characterisations of the training loop, used to state and prove the
claims: the readable images of the corpus, the expected training faces,
labels and label map, defined by direct recursion over the corpus. -/

/-- The readable images of one identity directory, in listing order. -/
def readablesIn (files : List (String × Option Image)) : List Image :=
  files.filterMap Prod.snd

/-- All readable images under identity subdirectories of the corpus. -/
def corpusReadables : List DirEntry → List Image
  | [] => []
  | DirEntry.file _ :: rest => corpusReadables rest
  | DirEntry.dir _ files :: rest => readablesIn files ++ corpusReadables rest

/-- Number of identity subdirectories of the corpus. -/
def numDirs : List DirEntry → Nat
  | [] => 0
  | DirEntry.file _ :: rest => numDirs rest
  | DirEntry.dir _ _ :: rest => numDirs rest + 1

/-- The faces `train_model` trains on: every readable image under an
identity subdirectory, resized to 200×200, in traversal order. -/
def expectedFaces (resize : Image → Nat × Nat → Image) : List DirEntry → List Image
  | [] => []
  | DirEntry.file _ :: rest => expectedFaces resize rest
  | DirEntry.dir _ files :: rest =>
      (readablesIn files).map (fun i => resize i (200, 200)) ++ expectedFaces resize rest

/-- The label list `train_model` trains with, starting from label-id `k`:
one copy of the label-id of the directory per readable image. -/
def expectedLabels (k : Nat) : List DirEntry → List Nat
  | [] => []
  | DirEntry.file _ :: rest => expectedLabels k rest
  | DirEntry.dir _ files :: rest =>
      List.replicate (readablesIn files).length k ++ expectedLabels (k + 1) rest

/-- The `label_map` built by `train_model` starting from label-id `k`:
consecutive label-ids mapped to the identity directory names. -/
def expectedLabelMap (k : Nat) : List DirEntry → List (Nat × String)
  | [] => []
  | DirEntry.file _ :: rest => expectedLabelMap k rest
  | DirEntry.dir dirName _ :: rest => (k, dirName) :: expectedLabelMap (k + 1) rest

/-! ## Recognition pass (`detect_and_recognize_faces`, app.py lines 132-171) -/

/-- The external OpenCV operations used by the recognition pass:
`cv2.cvtColor(·, COLOR_BGR2GRAY)`, `face_cascade.detectMultiScale`,
`cv2.resize`, and `face_recognizer.predict` (returning a label-id and a
confidence/distance score).  They are deterministic functions of their
inputs; the logic of the repository is parametric in them. -/
structure RecogEnv where
  cvtColor : Image → Image
  detectMultiScale : Image → List Rect
  resize : Image → Nat × Nat → Image
  predict : Image → Nat × ℚ

/-- One rectangle-plus-text annotation burned into the output image
(app.py lines 157-159): the box, the resolved name, the confidence score
and the BGR colour. -/
structure DrawnBox where
  box : Rect
  name : String
  confidence : ℚ
  color : Nat × Nat × Nat
deriving DecidableEq, Repr

/-- An email message as assembled by `send_alert_email`
(app.py lines 55-89): fixed sender, recipient, subject and body, with the
given image path attached. -/
structure EmailMessage where
  sender : String
  recipient : String
  subject : String
  body : String
  attachmentPath : String
deriving DecidableEq, Repr

/-- `send_alert_email(image_path)` (app.py lines 55-89): builds the alert
message with `image_path` as the attachment. -/
def send_alert_email (imagePath : String) : EmailMessage :=
  ⟨"taiebmontassar2003@gmail.com", "ettaiebmontassar@gmail.com",
   "Alerte de sécurité : Visage inconnu détecté",
   "Un visage inconnu a été détecté par le système de sécurité.",
   imagePath⟩

/-- The outcome of one call to `detect_and_recognize_faces`: the returned
pair `(face_detected, annotated_image_path)` plus the observable effects —
the annotations written into the output image and the alert emails sent. -/
structure RecogResult where
  faceDetected : Bool
  annotatedPath : Option String
  drawnBoxes : List DrawnBox
  emailsSent : List EmailMessage
deriving DecidableEq, Repr

/-- The name resolution of app.py line 155:
`label_map.get(label, "Inconnu") if confidence < 50 else "Inconnu"`. -/
def faceName (labelMap : List (Nat × String)) (label : Nat) (confidence : ℚ) : String :=
  if confidence < 50 then (labelMap.lookup label).getD ("Inconnu") else "Inconnu"

/-- The per-candidate work of app.py lines 151-159: crop, resize to
(200, 200), predict, resolve the name, choose the colour
(green `(0,255,0)` for a known face, red `(0,0,255)` otherwise). -/
def faceVerdict (env : RecogEnv) (grayImage : Image) (labelMap : List (Nat × String))
    (r : Rect) : DrawnBox :=
  let face := env.resize (cropImage grayImage r) (200, 200)
  let p := env.predict face
  let nm := faceName labelMap p.1 p.2
  ⟨r, nm, p.2, if nm ≠ ("Inconnu") then (0, 255, 0) else (0, 0, 255)⟩

/-- Loop body of app.py lines 150-162: annotate the candidate and set
`face_detected` when the resolved name is "Inconnu". -/
def processFace (env : RecogEnv) (grayImage : Image) (labelMap : List (Nat × String))
    (acc : Bool × List DrawnBox) (r : Rect) : Bool × List DrawnBox :=
  let a := faceVerdict env grayImage labelMap r
  (if a.name == ("Inconnu") then true else acc.1, acc.2 ++ [a])

/-- The annotated-image path of app.py line 165 for a given timestamp. -/
def annotatedPathFor (timestamp : String) : String :=
  "./annotated_images/annotated_" ++ timestamp ++ ".jpg"

/-- `detect_and_recognize_faces(image_path, label_map)`
(app.py lines 132-171).  `decodedImage` is the result of
`cv2.imread(image_path)` (`none` when the image cannot be decoded, in
which case `(False, None)` is returned at line 139 with no annotated
output and no email).  Otherwise every detected candidate is classified
and annotated, the annotated image is written to the timestamped path,
and an alert email with that path attached is sent iff some face was
resolved as unknown. -/
def detect_and_recognize_faces (env : RecogEnv) (timestamp : String)
    (decodedImage : Option Image) (labelMap : List (Nat × String)) : RecogResult :=
  match decodedImage with
  | none => ⟨false, none, [], []⟩
  | some image =>
      let grayImage := env.cvtColor image
      let faces := env.detectMultiScale grayImage
      let st := faces.foldl (processFace env grayImage labelMap) (false, [])
      let path := annotatedPathFor timestamp
      ⟨st.1, some path, st.2, if st.1 then [send_alert_email path] else []⟩

/-! ## Upload endpoint (`upload_and_analyze_image`, app.py lines 173-194) -/

/-- A persisted `DetectionEvent` row (app.py lines 45-49):
`image_path` is non-nullable, `annotated_image_path` is nullable. -/
structure DetectionEvent where
  id : Nat
  image_path : String
  annotated_image_path : Option String
deriving DecidableEq, Repr

/-- An incoming HTTP request body: `request.data` as a byte list and
`request.content_length`. -/
structure HttpRequest where
  data : List Nat
  contentLength : Option Nat
deriving DecidableEq, Repr

/-- The upload-file path of app.py lines 181-183 for a given timestamp. -/
def uploadPathFor (timestamp : String) : String :=
  "./uploads/" ++ timestamp ++ "_captured.jpg"

/-- The server-side state touched by the upload endpoint: the files
written to the upload folder and the committed `DetectionEvent` rows. -/
structure UploadState where
  files : List (String × List Nat)
  events : List DetectionEvent
deriving DecidableEq, Repr

/-- `upload_and_analyze_image` (app.py lines 173-194).  An empty body
(or a zero content length) is rejected with HTTP 400 before any side
effect (lines 178-179).  Otherwise the raw bytes are written under the
upload folder, `detect_and_recognize_faces` runs on them (`decode` is
`cv2.imread` applied to the written file), and a `DetectionEvent` is
created and committed with the returned `annotated_image_path` —
whatever it is, including `None` — before answering 200. -/
def upload_and_analyze_image (env : RecogEnv) (decode : List Nat → Option Image)
    (labelMap : List (Nat × String)) (tsUpload tsAnnotate : String)
    (req : HttpRequest) (s : UploadState) : Nat × UploadState :=
  if req.data = [] ∨ req.contentLength = some 0 then (400, s)
  else
    let filePath := uploadPathFor tsUpload
    let files1 := s.files ++ [(filePath, req.data)]
    let r := detect_and_recognize_faces env tsAnnotate (decode req.data) labelMap
    let event : DetectionEvent := ⟨s.events.length + 1, filePath, r.annotatedPath⟩
    (200, ⟨files1, s.events ++ [event]⟩)

/-! ## Log deletion (`delete_log`, app.py lines 223-240) -/

/-- The Python exception raised by `os.path.exists(None)`:
`os.stat` raises `TypeError` on `None`, and `genericpath.exists` only
catches `OSError` and `ValueError`, so the `TypeError` propagates out of
the handler uncaught. -/
inductive PyError where
  | typeError
deriving DecidableEq, Repr

/-- The filesystem-and-database state seen by `delete_log`. -/
structure ServerState where
  fs : List String
  events : List DetectionEvent
deriving DecidableEq, Repr

/-- `delete_log(log_id)` (app.py lines 223-240).  Looks the event up by
id (404 when absent), removes the raw image file if it exists, then
evaluates `os.path.exists(event.annotated_image_path)`: when that column
is `None` this raises an uncaught `TypeError` (modelled as
`Except.error`), so the handler never reaches the database delete nor the
200 response; note the raw image file may already have been removed at
that point.  When the column is set, the annotated file is removed if
present and the row is deleted with a 200 response. -/
def delete_log (logId : Nat) (s : ServerState) : Except PyError (Nat × ServerState) :=
  match s.events.find? (fun e => e.id == logId) with
  | none => Except.ok (404, s)
  | some event =>
      let fs1 := if s.fs.contains event.image_path then s.fs.erase event.image_path else s.fs
      match event.annotated_image_path with
      | none => Except.error PyError.typeError
      | some p =>
          let fs2 := if fs1.contains p then fs1.erase p else fs1
          Except.ok (200, ⟨fs2, s.events.filter (fun e => e.id != logId)⟩)

/-! ## Concrete instances used by witnesses and counterexamples -/

/-- A 1×1 test image. -/
def img1 : Image := ⟨[[1]]⟩

/-- A second 1×1 test image. -/
def img2 : Image := ⟨[[2]]⟩

/-- A concrete resize function for witnesses (identity on the pixels). -/
def resizeId : Image → Nat × Nat → Image := fun i _ => i

/-- A concrete recognition environment whose detector finds no face. -/
def envNoFaces : RecogEnv :=
  ⟨fun i => i, fun _ => [], resizeId, fun _ => (0, (0 : ℚ))⟩

/-- A concrete decoder that fails on every byte stream (a corrupted or
non-image upload). -/
def decodeFail : List Nat → Option Image := fun _ => none

/-- A concrete witness corpus: "alice" with one readable and one
unreadable image, a stray plain file, and "bob" with one readable
image. -/
def corpusW : List DirEntry :=
  [DirEntry.dir ("alice") [("a.jpg", some img1), ("bad.jpg", none)],
   DirEntry.file ("readme.txt"),
   DirEntry.dir ("bob") [("b.jpg", some img2)]]

/-- A concrete corpus with no readable image at all. -/
def corpusE : List DirEntry :=
  [DirEntry.dir ("alice") [("bad.jpg", none)], DirEntry.file ("readme.txt")]

/-! ## The training loop, characterised -/

/-- The inner file loop of `train_model` appends exactly the readable
images (resized to 200×200) and one copy of the label-id per readable
image. -/
theorem processImage_foldl (resize : Image → Nat × Nat → Image) (k : Nat)
    (files : List (String × Option Image)) (fs : List Image) (ls : List Nat) :
    files.foldl (processImage resize k) (fs, ls) =
      (fs ++ (readablesIn files).map (fun i => resize i (200, 200)),
       ls ++ List.replicate (readablesIn files).length k) := by
  induction files generalizing fs ls with
  | nil => simp [readablesIn]
  | cons f rest ih =>
    obtain ⟨nm, c⟩ := f
    cases c with
    | none =>
        simp only [List.foldl_cons, processImage, readablesIn, List.filterMap_cons]
        simpa [readablesIn] using ih fs ls
    | some img =>
        simp only [List.foldl_cons, processImage, readablesIn, List.filterMap_cons]
        simpa [readablesIn, List.replicate_succ] using ih (fs ++ [resize img (200, 200)]) (ls ++ [k])

/-- The outer directory loop of `train_model`, run from any state. -/
theorem processEntry_foldl (resize : Image → Nat × Nat → Image)
    (corpus : List DirEntry) (s : TrainState) :
    corpus.foldl (processEntry resize) s =
      ⟨s.faces ++ expectedFaces resize corpus,
       s.labels ++ expectedLabels s.labelId corpus,
       s.labelId + numDirs corpus,
       s.labelMap ++ expectedLabelMap s.labelId corpus⟩ := by
  induction corpus generalizing s with
  | nil => simp [expectedFaces, expectedLabels, numDirs, expectedLabelMap]
  | cons e rest ih =>
    cases e with
    | file nm =>
        simp only [List.foldl_cons, processEntry, expectedFaces, expectedLabels, numDirs,
          expectedLabelMap]
        exact ih s
    | dir nm files =>
        simp only [List.foldl_cons, processEntry, processImage_foldl, ih,
          expectedFaces, expectedLabels, numDirs, expectedLabelMap, TrainState.mk.injEq]
        refine ⟨by simp, by simp, by omega, by simp⟩

/-- `train_model`, fully evaluated via the loop characterisation. -/
theorem train_model_run (resize : Image → Nat × Nat → Image) (corpus : List DirEntry) :
    train_model resize corpus =
      if (expectedFaces resize corpus).length = 0
      then Except.error TrainError.emptyCorpus
      else Except.ok (⟨expectedFaces resize corpus, expectedLabels 0 corpus⟩,
        expectedLabelMap 0 corpus) := by
  unfold train_model
  rw [processEntry_foldl]
  simp

/-- The training set has as many faces as the corpus has readable
images. -/
theorem expectedFaces_length (resize : Image → Nat × Nat → Image)
    (corpus : List DirEntry) :
    (expectedFaces resize corpus).length = (corpusReadables corpus).length := by
  induction corpus with
  | nil => rfl
  | cons e rest ih => cases e <;> simp [expectedFaces, corpusReadables, ih]

/-- When `train_model` succeeds, the model and the label map are exactly
the expected ones. -/
theorem train_ok_eq (resize : Image → Nat × Nat → Image) (corpus : List DirEntry)
    (m : LBPHModel) (lm : List (Nat × String))
    (h : train_model resize corpus = Except.ok (m, lm)) :
    m = ⟨expectedFaces resize corpus, expectedLabels 0 corpus⟩
    ∧ lm = expectedLabelMap 0 corpus := by
  rw [train_model_run] at h
  by_cases h0 : (expectedFaces resize corpus).length = 0
  · rw [if_pos h0] at h
    exact (Except.noConfusion h)
  · rw [if_neg h0] at h
    injection h with h1
    injection h1 with h2 h3
    exact ⟨h2.symm, h3.symm⟩

/-- Every label-id occurring in `expectedLabels k corpus` is a key of
`expectedLabelMap k corpus`. -/
theorem expectedLabels_key (l : Nat) (corpus : List DirEntry) (k : Nat)
    (h : l ∈ expectedLabels k corpus) :
    (expectedLabelMap k corpus).any (fun p => p.1 == l) = true := by
  induction corpus generalizing k with
  | nil => simp [expectedLabels] at h
  | cons e rest ih =>
    cases e with
    | file nm =>
        simp only [expectedLabels] at h
        simp only [expectedLabelMap]
        exact ih k h
    | dir nm files =>
        simp only [expectedLabels, List.mem_append] at h
        simp only [expectedLabelMap, List.any_cons]
        rcases h with h | h
        · have hk : l = k := List.eq_of_mem_replicate h
          simp [hk]
        · simp [ih (k + 1) h]

/-! ## The recognition loop, characterised -/

/-- The candidate loop of `detect_and_recognize_faces`, run from any
state: the flag becomes the OR of the per-candidate unknown verdicts and
the annotations are appended in order. -/
theorem processFace_foldl (env : RecogEnv) (gray : Image) (lm : List (Nat × String))
    (rs : List Rect) (b : Bool) (acc : List DrawnBox) :
    rs.foldl (processFace env gray lm) (b, acc) =
      (b || (rs.map (faceVerdict env gray lm)).any (fun a => a.name == ("Inconnu")),
       acc ++ rs.map (faceVerdict env gray lm)) := by
  induction rs generalizing b acc with
  | nil => simp
  | cons r rest ih =>
      simp only [List.foldl_cons, processFace, List.map_cons, List.any_cons, ih]
      cases hA : (faceVerdict env gray lm r).name == ("Inconnu") <;>
        simp [hA, List.append_assoc]

/-- `detect_and_recognize_faces` on a decodable image, fully
evaluated. -/
theorem detect_some_eq (env : RecogEnv) (ts : String) (img : Image)
    (lm : List (Nat × String)) :
    detect_and_recognize_faces env ts (some img) lm =
      ⟨((env.detectMultiScale (env.cvtColor img)).map
          (faceVerdict env (env.cvtColor img) lm)).any (fun a => a.name == ("Inconnu")),
       some (annotatedPathFor ts),
       (env.detectMultiScale (env.cvtColor img)).map (faceVerdict env (env.cvtColor img) lm),
       if ((env.detectMultiScale (env.cvtColor img)).map
            (faceVerdict env (env.cvtColor img) lm)).any (fun a => a.name == ("Inconnu"))
       then [send_alert_email (annotatedPathFor ts)] else []⟩ := by
  unfold detect_and_recognize_faces
  simp [processFace_foldl]

/-! ## Claims -/

/-- C1 (counterexample): the claim "accept as known iff an identity label
exists for the returned label-id AND distance-score < 50" fails on the
code.  With the IdentityIndex mapping label-id 0 to the identity label
"Inconnu" (an enrollment directory named `Inconnu`) and distance-score 0,
an identity label exists for the returned label-id and the score is below
the threshold, yet line 155 resolves the name to the sentinel string and
lines 157/161 therefore treat the face as unknown. -/
theorem faceName_sentinel_counterexample :
    (([((0 : Nat), "Inconnu")] : List (Nat × String)).lookup 0).isSome = true
    ∧ ((0 : ℚ) < 50)
    ∧ faceName [((0 : Nat), "Inconnu")] 0 0 = ("Inconnu") := by
  refine ⟨rfl, by norm_num, ?_⟩
  rw [faceName, if_pos (by norm_num : (0 : ℚ) < 50)]
  rfl

/-- C1 (amended): a face candidate is accepted as known iff the
distance-score is strictly below 50 AND the IdentityIndex has an entry
for the returned label-id whose identity label differs from the sentinel
string "Inconnu"; in every other case — missing label-id, score ≥ 50
(including exactly 50), or an identity literally labelled "Inconnu" —
the verdict is unknown. -/
theorem faceName_known_iff (lm : List (Nat × String)) (label : Nat) (c : ℚ) :
    faceName lm label c ≠ ("Inconnu")
      ↔ c < 50 ∧ ∃ s, lm.lookup label = some s ∧ s ≠ ("Inconnu") := by
  unfold faceName
  by_cases hc : c < 50
  · rw [if_pos hc]
    cases h : lm.lookup label with
    | none => simp [hc]
    | some s => simp [hc]
  · rw [if_neg hc]
    simp [hc]

/-- C1 (witness): at the boundary score 50 against an index holding
label-id 0 ↦ "alice", the candidate is unknown; at score 49 it is
known. -/
theorem faceName_known_iff_witness :
    faceName [((0 : Nat), "alice")] 0 49 ≠ ("Inconnu")
    ∧ ¬ (faceName [((0 : Nat), "alice")] 0 50 ≠ ("Inconnu")) := by
  constructor
  · exact (faceName_known_iff [((0 : Nat), "alice")] 0 49).mpr
      ⟨by norm_num, "alice", rfl, by decide⟩
  · intro h
    have h2 := (faceName_known_iff [((0 : Nat), "alice")] 0 50).mp h
    exact absurd h2.1 (by norm_num)

/-- C3: for every successfully decoded image, the aggregate
`face_detected` flag returned by `detect_and_recognize_faces` equals the
OR over the per-face unknown verdicts burned into the annotated image;
and when the detector finds zero faces, the aggregate is false and no
alert email is sent. -/
theorem aggregate_unknown_is_or (env : RecogEnv) (ts : String) (img : Image)
    (lm : List (Nat × String)) :
    ((detect_and_recognize_faces env ts (some img) lm).faceDetected
       = (detect_and_recognize_faces env ts (some img) lm).drawnBoxes.any
           (fun a => a.name == ("Inconnu")))
    ∧ (env.detectMultiScale (env.cvtColor img) = [] →
        (detect_and_recognize_faces env ts (some img) lm).faceDetected = false
        ∧ (detect_and_recognize_faces env ts (some img) lm).emailsSent = []) := by
  rw [detect_some_eq]
  constructor
  · rfl
  · intro h
    rw [h]
    simp

/-- C3 (witness): on a concrete environment whose detector returns no
face, the aggregate outcome is false and no alert email is sent. -/
theorem aggregate_unknown_is_or_witness :
    (detect_and_recognize_faces envNoFaces ("t") (some img1) []).faceDetected = false
    ∧ (detect_and_recognize_faces envNoFaces ("t") (some img1) []).emailsSent = [] :=
  (aggregate_unknown_is_or envNoFaces ("t") img1 []).2 rfl

/-- C4: an alert email is sent iff the aggregate unknown-present flag is
true, and its payload attaches exactly the annotated-image path produced
by this pass (the image with boxes and labels burned in, written under
`./annotated_images/`), which is also the path returned by the pass —
never the raw captured upload. -/
theorem alert_iff_unknown_attaches_annotated (env : RecogEnv) (ts : String)
    (img : Image) (lm : List (Nat × String)) :
    ((detect_and_recognize_faces env ts (some img) lm).emailsSent
       = if (detect_and_recognize_faces env ts (some img) lm).faceDetected
         then [send_alert_email (annotatedPathFor ts)] else [])
    ∧ (detect_and_recognize_faces env ts (some img) lm).annotatedPath
        = some (annotatedPathFor ts)
    ∧ (send_alert_email (annotatedPathFor ts)).attachmentPath = annotatedPathFor ts := by
  rw [detect_some_eq]
  exact ⟨rfl, rfl, rfl⟩

/-- C8: the recognition pass is deterministic in everything the claim
mentions: for a fixed decoded image, classifier environment and
IdentityIndex, two runs (whose only difference can be the wall-clock
timestamp used to name the output file) produce identical per-face
verdicts, identical annotations, and identical bounding-box
coordinates. -/
theorem recognize_deterministic (env : RecogEnv) (ts1 ts2 : String)
    (decoded : Option Image) (lm : List (Nat × String)) :
    ((detect_and_recognize_faces env ts1 decoded lm).drawnBoxes
       = (detect_and_recognize_faces env ts2 decoded lm).drawnBoxes)
    ∧ ((detect_and_recognize_faces env ts1 decoded lm).faceDetected
       = (detect_and_recognize_faces env ts2 decoded lm).faceDetected)
    ∧ ((detect_and_recognize_faces env ts1 decoded lm).drawnBoxes.map (fun a => a.box)
       = (detect_and_recognize_faces env ts2 decoded lm).drawnBoxes.map (fun a => a.box)) := by
  cases decoded <;> exact ⟨rfl, rfl, rfl⟩

/-- C5: if the training set obtained from the enrollment corpus is empty
(no readable image under any identity subdirectory), `train_model` fails
fatally with the empty-corpus error (the `exit()` of line 123) and
produces no trained classifier. -/
theorem train_empty_corpus_fails (resize : Image → Nat × Nat → Image)
    (corpus : List DirEntry) (h : corpusReadables corpus = []) :
    train_model resize corpus = Except.error TrainError.emptyCorpus := by
  rw [train_model_run]
  have h0 : (expectedFaces resize corpus).length = 0 := by
    rw [expectedFaces_length, h]
    rfl
  rw [if_pos h0]

/-- C5 (witness): a corpus whose only identity directory holds a single
unreadable image fails with the empty-corpus error. -/
theorem train_empty_corpus_fails_witness :
    train_model resizeId corpusE = Except.error TrainError.emptyCorpus :=
  train_empty_corpus_fails resizeId corpusE rfl

/-- C6: a successful training run trains on exactly the readable images
found under the identity subdirectories of the corpus, each resized to
200×200 (after the grayscale load modelled by the corpus contents), each
tagged with the integer label-id of its subdirectory; the IdentityIndex
maps each consecutive label-id to the name of its subdirectory; unreadable
images contribute nothing and do not abort the run. -/
theorem train_result_characterization (resize : Image → Nat × Nat → Image)
    (corpus : List DirEntry) (m : LBPHModel) (lm : List (Nat × String))
    (h : train_model resize corpus = Except.ok (m, lm)) :
    m.faces = expectedFaces resize corpus
    ∧ m.labels = expectedLabels 0 corpus
    ∧ lm = expectedLabelMap 0 corpus := by
  obtain ⟨h1, h2⟩ := train_ok_eq resize corpus m lm h
  subst h1
  exact ⟨rfl, rfl, h2⟩

/-- C6 (witness): on the concrete corpus `corpusW` (alice: one readable
and one unreadable image, a stray file, bob: one readable image), the
trained faces are the two readable images, tagged 0 and 1, and the index
maps 0 ↦ "alice" and 1 ↦ "bob". -/
theorem train_result_characterization_witness :
    (⟨[img1, img2], [0, 1]⟩ : LBPHModel).faces = expectedFaces resizeId corpusW
    ∧ (⟨[img1, img2], [0, 1]⟩ : LBPHModel).labels = expectedLabels 0 corpusW
    ∧ ([((0 : Nat), "alice"), (1, "bob")] : List (Nat × String))
        = expectedLabelMap 0 corpusW :=
  train_result_characterization resizeId corpusW ⟨[img1, img2], [0, 1]⟩
    [((0 : Nat), "alice"), (1, "bob")] rfl

/-- C7: every label-id among the labels a successful training run trained
the model on is a key of the IdentityIndex returned by that same run, so
a classify call against the paired model and index can never observe a
label-id absent from the index. -/
theorem train_labels_have_identity (resize : Image → Nat × Nat → Image)
    (corpus : List DirEntry) (m : LBPHModel) (lm : List (Nat × String))
    (h : train_model resize corpus = Except.ok (m, lm)) :
    m.labels.all (fun l => lm.any (fun p => p.1 == l)) = true := by
  obtain ⟨h1, h2⟩ := train_ok_eq resize corpus m lm h
  subst h1
  subst h2
  rw [List.all_eq_true]
  intro l hl
  exact expectedLabels_key l corpus 0 hl

/-- C7 (witness): on the concrete corpus `corpusW`, every trained label
is a key of the returned index. -/
theorem train_labels_have_identity_witness :
    (([0, 1] : List Nat)).all
      (fun l => ([((0 : Nat), "alice"), (1, "bob")] : List (Nat × String)).any
        (fun p => p.1 == l)) = true :=
  train_labels_have_identity resizeId corpusW ⟨[img1, img2], [0, 1]⟩
    [((0 : Nat), "alice"), (1, "bob")] rfl

/-- C2 (counterexample): the claim "no DetectionEvent is recorded for an
upload whose image fails to decode" fails on the code.  Uploading the
one-byte body `[1]` with a decoder that rejects it, the handler at lines
188-192 still constructs and commits a `DetectionEvent` (with an absent
annotated-image reference) and answers 200: starting from an empty
store, exactly one event is recorded. -/
theorem upload_decode_failure_counterexample :
    ((upload_and_analyze_image envNoFaces decodeFail [] ("t1") ("t2")
        ⟨[1], none⟩ ⟨[], []⟩).2.events
      = [⟨1, uploadPathFor ("t1"), none⟩])
    ∧ (upload_and_analyze_image envNoFaces decodeFail [] ("t1") ("t2")
        ⟨[1], none⟩ ⟨[], []⟩).1 = 200 := by
  exact ⟨rfl, rfl⟩

/-- C2 (amended): for every input image that fails to decode, the
recognition pass produces no annotated output image and sends no alert
(lines 136-139 return `(False, None)` at once), but the upload handler
still records a DetectionEvent for that upload — with an absent
annotated-image reference — and acknowledges with 200. -/
theorem upload_decode_failure_records_event (env : RecogEnv)
    (decode : List Nat → Option Image) (lm : List (Nat × String))
    (tsU tsA : String) (req : HttpRequest) (s : UploadState)
    (hreq : ¬(req.data = [] ∨ req.contentLength = some 0))
    (hdec : decode req.data = none) :
    (detect_and_recognize_faces env tsA (decode req.data) lm).annotatedPath = none
    ∧ (detect_and_recognize_faces env tsA (decode req.data) lm).emailsSent = []
    ∧ (detect_and_recognize_faces env tsA (decode req.data) lm).drawnBoxes = []
    ∧ (upload_and_analyze_image env decode lm tsU tsA req s).2.events
        = s.events ++ [⟨s.events.length + 1, uploadPathFor tsU, none⟩]
    ∧ (upload_and_analyze_image env decode lm tsU tsA req s).1 = 200 := by
  unfold upload_and_analyze_image
  rw [hdec, if_neg hreq]
  exact ⟨rfl, rfl, rfl, rfl, rfl⟩

/-- C2 (witness): the amended statement at the concrete undecodable
upload of the counterexample. -/
theorem upload_decode_failure_records_event_witness :
    (detect_and_recognize_faces envNoFaces ("t2") (decodeFail [1]) []).annotatedPath = none
    ∧ (detect_and_recognize_faces envNoFaces ("t2") (decodeFail [1]) []).emailsSent = []
    ∧ (detect_and_recognize_faces envNoFaces ("t2") (decodeFail [1]) []).drawnBoxes = []
    ∧ (upload_and_analyze_image envNoFaces decodeFail [] ("t1") ("t2")
        ⟨[1], none⟩ ⟨[], []⟩).2.events
        = [⟨1, uploadPathFor ("t1"), none⟩]
    ∧ (upload_and_analyze_image envNoFaces decodeFail [] ("t1") ("t2")
        ⟨[1], none⟩ ⟨[], []⟩).1 = 200 :=
  upload_decode_failure_records_event envNoFaces decodeFail [] ("t1") ("t2")
    ⟨[1], none⟩ ⟨[], []⟩ (by decide) rfl

/-- C9: for every stored DetectionEvent whose `annotated_image_path` is
absent — the value committed when the uploaded image failed to decode —
`delete_log` hits the uncaught `TypeError` of `os.path.exists(None)`
instead of completing: it neither deletes the row from the database nor
returns an acknowledgement to the caller. -/
theorem delete_log_none_annotated_raises (s : ServerState) (logId : Nat)
    (event : DetectionEvent)
    (hfind : s.events.find? (fun e => e.id == logId) = some event)
    (hnone : event.annotated_image_path = none) :
    delete_log logId s = Except.error PyError.typeError := by
  unfold delete_log
  rw [hfind]
  simp only [hnone]

/-- C9 (witness): a store holding the single event `(1, "p", None)` —
as recorded for a failed decode — raises the type error on
`DELETE /logs/1`. -/
theorem delete_log_none_annotated_raises_witness :
    delete_log 1 ⟨["p"], [⟨1, "p", none⟩]⟩ = Except.error PyError.typeError :=
  delete_log_none_annotated_raises ⟨["p"], [⟨1, "p", none⟩]⟩ 1
    ⟨1, "p", none⟩ rfl rfl

/-- C10: an upload request with an empty (or absent) body is rejected
with HTTP 400 before any side effect: the state — upload-folder files and
recorded DetectionEvents — is returned unchanged and no recognition pass
output is committed. -/
theorem upload_empty_body_no_side_effect (env : RecogEnv)
    (decode : List Nat → Option Image) (lm : List (Nat × String))
    (tsU tsA : String) (req : HttpRequest) (s : UploadState)
    (h : req.data = []) :
    upload_and_analyze_image env decode lm tsU tsA req s = (400, s) := by
  unfold upload_and_analyze_image
  rw [if_pos (Or.inl h)]

/-- C10 (witness): an empty-body request against a store with one prior
event is rejected with 400 and the store is untouched. -/
theorem upload_empty_body_no_side_effect_witness :
    upload_and_analyze_image envNoFaces decodeFail [] ("t1") ("t2")
      ⟨[], none⟩ ⟨[(uploadPathFor ("t0"), [7])], [⟨1, uploadPathFor ("t0"), none⟩]⟩
      = (400, ⟨[(uploadPathFor ("t0"), [7])], [⟨1, uploadPathFor ("t0"), none⟩]⟩) :=
  upload_empty_body_no_side_effect envNoFaces decodeFail [] ("t1") ("t2")
    ⟨[], none⟩ ⟨[(uploadPathFor ("t0"), [7])], [⟨1, uploadPathFor ("t0"), none⟩]⟩ rfl

end HomeSec
